import Mathlib

/-!
Verification of the VIB3+ engine core against its specification.

This file gives a shallow embedding, in Lean 4, of the parts of the
VIB3+ repository that the specification talks about:

* `GeometryLibrary` (geometry index codec) from the geometry library module;
* `Hexacosichoron` (600-cell vertex/edge generation) from
  `src/geometry/Hexacosichoron.js`;
* `CollectionManager` (collection import and validation);
* `VIB3Engine` / `CanvasManager` (system switching lifecycle);
* the URL state codec (`encodeStateToURL` / `loadStateFromURL`);
* the click-mode decay loops of `ReactivityManager`
  (`BurstMode`, `RippleMode`) and `RotationMode`.

JavaScript numbers are modelled as exact integers (`Int`) or exact
rationals (`ℚ`); the JavaScript `%` operator on integers is truncated
remainder (`Int.tmod`), and `Math.floor` division is `Int.fdiv`.
`undefined`/`null` are modelled by `Option`.
-/

namespace VIB3

/-! ## JavaScript integer arithmetic helpers

JS `a % b` on integers is the truncated remainder (sign of the dividend),
which is `Int.tmod`.  The source normalizes with the idiom
`((x % t) + t) % t`; we prove once that for `t = 24` this agrees with the
Euclidean remainder `x % 24` of Lean. -/

/-- JS `%` on integer values: truncated remainder. -/
def jsMod (a b : Int) : Int := a.tmod b

/-! ## GeometryLibrary — the geometry index codec

Embedded from the `GeometryLibrary` module: the `BASE_GEOMETRIES` and
`CORE_VARIANTS` catalogs, `encodeGeometryIndex`, `normalizeGeometryIndex`
and `describeGeometry`. -/

namespace GeometryLibrary

/-- `BASE_GEOMETRIES`: the eight base geometry records `(key, name)`. -/
def BASE_GEOMETRIES : List (String × String) :=
  [ ("tetrahedron", "TETRAHEDRON"),
    ("hypercube", "HYPERCUBE"),
    ("sphere", "SPHERE"),
    ("torus", "TORUS"),
    ("klein-bottle", "KLEIN BOTTLE"),
    ("fractal", "FRACTAL"),
    ("wave", "WAVE"),
    ("crystal", "CRYSTAL") ]

/-- One entry of `CORE_VARIANTS` (the `legacy` flag is only present on the
first entry in the source; absent means `false`/undefined). -/
structure CoreVariant where
  key : String
  name : String
  legacy : Bool
deriving Repr, DecidableEq

/-- `CORE_VARIANTS`: the three core variant records. -/
def CORE_VARIANTS : List CoreVariant :=
  [ ⟨"hypercube-core", "HYPERCUBE CORE", true⟩,
    ⟨"hypersphere-core", "HYPERSPHERE CORE", false⟩,
    ⟨"hypertetra-core", "HYPERTETRA CORE", false⟩ ]

/-- `GeometryLibrary.encodeGeometryIndex(baseIndex, coreIndex = 0)`:
guards each index against its catalog bound and returns
`coreIndex * baseCount + baseIndex`; `null` (`none`) on any violation. -/
def encodeGeometryIndex (baseIndex : Int) (coreIndex : Int := 0) : Option Int :=
  let baseCount : Int := (BASE_GEOMETRIES.length : Int)
  let coreCount : Int := (CORE_VARIANTS.length : Int)
  if baseCount = 0 ∨ coreCount = 0 then none
  else if baseIndex < 0 ∨ baseCount ≤ baseIndex then none
  else if coreIndex < 0 ∨ coreCount ≤ coreIndex then none
  else some (coreIndex * baseCount + baseIndex)

/-- `GeometryLibrary.normalizeGeometryIndex(index)`: wraps any (finite)
integer into `[0, total)` with the `((i % total) + total) % total` idiom. -/
def normalizeGeometryIndex (index : Int) : Option Int :=
  let total : Int := (BASE_GEOMETRIES.length : Int) * (CORE_VARIANTS.length : Int)
  if total = 0 then none
  else some (jsMod (jsMod index total + total) total)

/-- `GeometryLibrary.getGeometryNames()`: the 24 display names (8 plain
base names, then 8 hypersphere-core names, then 8 hypertetra-core names). -/
def getGeometryNames : List String :=
  let hypersphere := BASE_GEOMETRIES.map
    (fun p => p.2 ++ " • " ++ (CORE_VARIANTS.get ⟨1, by decide⟩).name)
  let hypertetra := BASE_GEOMETRIES.map
    (fun p => p.2 ++ " • " ++ (CORE_VARIANTS.get ⟨2, by decide⟩).name)
  BASE_GEOMETRIES.map (·.2) ++ hypersphere ++ hypertetra

/-- `GeometryLibrary.getGeometryName(type)`: `names[type] || UNKNOWN`
(an out-of-range lookup is `undefined`, hence falsy). -/
def getGeometryName (type : Int) : String :=
  let names := getGeometryNames
  if h : 0 ≤ type ∧ type < (names.length : Int) then
    names.get ⟨type.toNat, by omega⟩
  else "UNKNOWN"

/-- The record returned by `GeometryLibrary.describeGeometry`. -/
structure GeometryDescriptor where
  index : Int
  name : String
  baseIndex : Int
  baseKey : String
  baseName : String
  coreIndex : Int
  coreKey : String
  coreName : String
  isLegacyCore : Bool
deriving Repr, DecidableEq

/-- JS array lookup `xs[i]` returning `undefined` (`none`) out of range. -/
def jsIndex {α : Type} (xs : List α) (i : Int) : Option α :=
  if h : 0 ≤ i ∧ i < (xs.length : Int) then some (xs.get ⟨i.toNat, by omega⟩)
  else none

/-- `GeometryLibrary.describeGeometry(index)`: wraps the index modulo
`baseCount * coreCount`, splits it into `baseIndex = n % baseCount` and
`coreIndex = Math.floor(n / baseCount)`, and builds the descriptor
(`CORE_VARIANTS[coreIndex] || CORE_VARIANTS[0]`). -/
def describeGeometry (index : Int) : Option GeometryDescriptor :=
  let baseCount : Int := (BASE_GEOMETRIES.length : Int)
  if baseCount = 0 then none
  else
    let total : Int := baseCount * (CORE_VARIANTS.length : Int)
    let normalizedIndex : Int := jsMod (jsMod index total + total) total
    let baseIndex : Int := jsMod normalizedIndex baseCount
    let coreIndex : Int := Int.fdiv normalizedIndex baseCount
    match jsIndex BASE_GEOMETRIES baseIndex with
    | none => none
    | some base =>
      let core := (jsIndex CORE_VARIANTS coreIndex).getD
        (CORE_VARIANTS.get ⟨0, by decide⟩)
      some { index := normalizedIndex,
             name := getGeometryName normalizedIndex,
             baseIndex := baseIndex,
             baseKey := base.1,
             baseName := base.2,
             coreIndex := coreIndex,
             coreKey := core.key,
             coreName := core.name,
             isLegacyCore := core.legacy }

end GeometryLibrary

/-! ## Hexacosichoron — `src/geometry/Hexacosichoron.js`

The constructor computes `phi = (1 + Math.sqrt(5)) / 2` and
`invPhi = 1 / phi`, and builds the vertex list from three groups.  All
coordinate values live in the quadratic field `ℚ[√5]`, which we embed
exactly as pairs `(a, b)` standing for `a + b·√5`; the final
`map(normalize4D)` step divides each vertex by its (irrational) length
and therefore preserves the length of the list, so the vertex count is
settled on the pre-normalization list. -/

namespace Hexacosichoron

/-- An element `(a + b·√5) / 2` of the ring `ℤ[φ]`, stored as the integer
pair `(a, b)` (with `a ≡ b (mod 2)` for every value this file builds).
This integer representation is canonical — two pairs are equal iff they
denote the same real — and, unlike `ℚ`, it evaluates inside the kernel. -/
structure Q5 where
  a : Int
  b : Int
deriving DecidableEq, Repr

namespace Q5

/-- The integer `n`, i.e. `(2n + 0·√5) / 2`. -/
def ofInt (n : Int) : Q5 := ⟨2 * n, 0⟩

instance : OfNat Q5 0 := ⟨⟨0, 0⟩⟩

instance : OfNat Q5 1 := ⟨⟨2, 0⟩⟩

instance : Neg Q5 := ⟨fun v => ⟨-v.a, -v.b⟩⟩

instance : Add Q5 := ⟨fun u v => ⟨u.a + v.a, u.b + v.b⟩⟩

/-- `(a + b√5)/2 · (c + d√5)/2 = ((ac + 5bd)/2 + ((ad + bc)/2)·√5) / 2`;
the halvings are exact on parity-matched pairs. -/
instance : Mul Q5 := ⟨fun u v =>
  ⟨(u.a * v.a + 5 * u.b * v.b) / 2, (u.a * v.b + u.b * v.a) / 2⟩⟩

/-- `this.phi = (1 + √5) / 2`. -/
def phi : Q5 := ⟨1, 1⟩

/-- `this.invPhi = 1 / phi = (√5 - 1) / 2`. -/
def invPhi : Q5 := ⟨-1, 1⟩

/-- Decides whether the denoted real `(a + b·√5)/2` is strictly negative
(used for the JS test `v < 0`). -/
def isNeg (v : Q5) : Bool :=
  if v.b = 0 then decide (v.a < 0)
  else if 0 < v.b then decide (v.a < 0 ∧ 5 * v.b ^ 2 < v.a ^ 2)
  else decide (v.a < 0 ∨ v.a ^ 2 < 5 * v.b ^ 2)

end Q5

/-- `permuteCoordinates(coords)`: lists all 24 arrangements of the four
entries in the exact order of the source, then keeps the first occurrence
of each distinct tuple (the source deduplicates via a string-key `Set`;
with exact values, string keys coincide exactly with tuple equality). -/
def allPerms (coords : List Q5) : List (List Q5) :=
  match coords with
  | [a, b, c, d] =>
      [ [a,b,c,d], [a,b,d,c], [a,c,b,d], [a,c,d,b], [a,d,b,c], [a,d,c,b],
        [b,a,c,d], [b,a,d,c], [b,c,a,d], [b,c,d,a], [b,d,a,c], [b,d,c,a],
        [c,a,b,d], [c,a,d,b], [c,b,a,d], [c,b,d,a], [c,d,a,b], [c,d,b,a],
        [d,a,b,c], [d,a,c,b], [d,b,a,c], [d,b,c,a], [d,c,a,b], [d,c,b,a] ]
  | _ => []

/-- First-occurrence deduplication, as performed by the `seen` set. -/
def dedupFirst : List (List Q5) → List (List Q5) → List (List Q5)
  | [], _ => []
  | p :: rest, seen =>
      if p ∈ seen then dedupFirst rest seen
      else p :: dedupFirst rest (p :: seen)

def permuteCoordinates (coords : List Q5) : List (List Q5) :=
  dedupFirst (allPerms coords) []

/-- Group 1: `(±1, ±1, ±1, ±1)` over `i = 0..15`, kept when the number of
strictly negative entries is even. -/
def group1 : List (List Q5) :=
  (List.range 16).filterMap (fun i =>
    let x : Q5 := if i &&& 1 ≠ 0 then 1 else -1
    let y : Q5 := if i &&& 2 ≠ 0 then 1 else -1
    let z : Q5 := if i &&& 4 ≠ 0 then 1 else -1
    let w : Q5 := if i &&& 8 ≠ 0 then 1 else -1
    let minusCount := ([x, y, z, w].filter (fun v => v.isNeg)).length
    if minusCount % 2 = 0 then some [x, y, z, w] else none)

/-- Group 2: permutations of `(0, 0, ±phi, ±invPhi)` for the four sign bases. -/
def group2 : List (List Q5) :=
  let coords2 : List (List Q5) :=
    [ [0, 0, Q5.phi, Q5.invPhi],
      [0, 0, Q5.phi, -Q5.invPhi],
      [0, 0, -Q5.phi, Q5.invPhi],
      [0, 0, -Q5.phi, -Q5.invPhi] ]
  (coords2.map permuteCoordinates).flatten

/-- Group 3: permutations of `(±phi, ±1, 0, 0)` for the four sign bases. -/
def group3 : List (List Q5) :=
  let coords3 : List (List Q5) :=
    [ [Q5.phi, 1, 0, 0],
      [Q5.phi, -1, 0, 0],
      [-Q5.phi, 1, 0, 0],
      [-Q5.phi, -1, 0, 0] ]
  (coords3.map permuteCoordinates).flatten

/-- The vertex list built by `generateVertices` *before* the final
`vertices.map(v => this.normalize4D(v))`, which is a `List.map` and hence
does not change the number of vertices. -/
def generateVerticesRaw : List (List Q5) := group1 ++ group2 ++ group3

/-- Squared Euclidean 4D norm of a coordinate list (exact arithmetic). -/
def normSq (v : List Q5) : Q5 := (v.map (fun x => x * x)).foldl (· + ·) 0

end Hexacosichoron

/-! ## CollectionManager — collection import and validation

Embedded from the `CollectionManager` module: the decision logic of
`importCollectionFile` (the `reader.onload` handler applied to an
already-parsed document; file I/O and JSON parsing are outside the model)
and `validateCollection`.  Parameter values are exact rationals; a JS
comparison against `undefined` is `false`, which the `jsUndefLt` /
`jsUndefGt` helpers encode.  Error strings drop the interpolated values
of the JS template literals. -/

namespace CollectionManager

/-- `undefined`-aware JS comparison `a < q` (false when `a` is undefined). -/
def jsUndefLt (a : Option ℚ) (q : ℚ) : Bool :=
  match a with
  | none => false
  | some x => decide (x < q)

/-- `undefined`-aware JS comparison `a > q` (false when `a` is undefined). -/
def jsUndefGt (a : Option ℚ) (q : ℚ) : Bool :=
  match a with
  | none => false
  | some x => decide (q < x)

/-- A variation's `parameters` object.  Only the channels the embedded
code reads are listed; absent fields are `none` (`undefined`). -/
structure Params where
  geometry : Option ℚ := none
  rot4dXY : Option ℚ := none
  rot4dXZ : Option ℚ := none
  rot4dYZ : Option ℚ := none
  rot4dXW : Option ℚ := none
  rot4dYW : Option ℚ := none
  rot4dZW : Option ℚ := none
  gridDensity : Option ℚ := none
  morphFactor : Option ℚ := none
  chaos : Option ℚ := none
  speed : Option ℚ := none
  hue : Option ℚ := none
  saturation : Option ℚ := none
  intensity : Option ℚ := none
deriving Repr

/-- One entry of a collection's `variations` array. -/
structure Variation where
  system : Option String := none
  parameters : Option Params := none
deriving Repr

/-- A parsed collection document. -/
structure Collection where
  type : Option String := none
  variations : Option (List Variation) := none
deriving Repr

/-- The `{valid, error}` record returned by `validateCollection`. -/
structure ValidationResult where
  valid : Bool
  error : Option String
deriving Repr, DecidableEq

def validSystems : List String := ["quantum", "faceted", "holographic"]

/-- The test `params[rotParam] !== undefined && (params[rotParam] < 0 ||
params[rotParam] > 6.28)` of the rotation-channel loop. -/
def rotBad (v : Option ℚ) : Bool :=
  match v with
  | none => false
  | some x => decide (x < 0) || decide ((6.28 : ℚ) < x)

/-- The rotation-channel loop over
`[rot4dXY, rot4dXZ, rot4dYZ, rot4dXW, rot4dYW, rot4dZW]`, returning the
first offending channel's error. -/
def firstRotError (p : Params) : Option String :=
  if rotBad p.rot4dXY then some "Invalid rotation parameter: rot4dXY"
  else if rotBad p.rot4dXZ then some "Invalid rotation parameter: rot4dXZ"
  else if rotBad p.rot4dYZ then some "Invalid rotation parameter: rot4dYZ"
  else if rotBad p.rot4dXW then some "Invalid rotation parameter: rot4dXW"
  else if rotBad p.rot4dYW then some "Invalid rotation parameter: rot4dYW"
  else if rotBad p.rot4dZW then some "Invalid rotation parameter: rot4dZW"
  else none

/-- The per-variation body of `validateCollection`'s loop. -/
def checkVariation (v : Variation) : Option String :=
  match v.system with
  | none => some "Invalid system"
  | some s =>
    if s ∉ validSystems then some "Invalid system"
    else
      match v.parameters with
      | none => some "Missing parameters object"
      | some p =>
        if jsUndefLt p.geometry 0 || jsUndefGt p.geometry 23 then
          some "Invalid geometry index"
        else firstRotError p

/-- The `for (const variation of collection.variations)` loop: first
failure wins. -/
def validateVariations : List Variation → ValidationResult
  | [] => ⟨true, none⟩
  | v :: rest =>
    match checkVariation v with
    | some e => ⟨false, some e⟩
    | none => validateVariations rest

/-- `CollectionManager.validateCollection(collection)`. -/
def validateCollection (c : Collection) : ValidationResult :=
  if c.type ≠ some "vib3plus-collection" then
    ⟨false, some "Invalid collection type"⟩
  else
    match c.variations with
    | none => ⟨false, some "Missing variations array"⟩
    | some vars => validateVariations vars

/-- The decision logic of `importCollectionFile`'s `reader.onload`
handler, applied to an already-parsed document `data`: migrate a legacy
`holographic-collection`, reject when the type tag is wrong, and
otherwise admit the whole document into `this.collections`.  The legacy
per-variation migration function is passed in as `migrate` (its details
do not affect the admission decision).  `Except.ok d` means `d` is stored
in the in-memory collection map; note that `validateCollection` is never
consulted. -/
def importCollectionDecision (migrate : Variation → Variation)
    (data : Collection) : Except String Collection :=
  if data.type = some "holographic-collection" then
    match data.variations with
    | none =>
      Except.error "Failed to parse collection"
    | some vs =>
      let migrated : Collection :=
        { type := some "vib3plus-collection", variations := some (vs.map migrate) }
      Except.ok migrated
  else if data.type ≠ some "vib3plus-collection" then
    Except.error "Failed to parse collection: Invalid collection type"
  else
    Except.ok data

end CollectionManager

/-! ## VIB3Engine / CanvasManager — system switching lifecycle

Embedded from the `VIB3Engine` and `CanvasManager` modules.  The concrete
engine classes (`QuantumEngine`, `FacetedSystem`, `RealHolographicSystem`)
are not part of the repository sources, so whether
`await system.initialize(canvases)` resolves is an oracle parameter
`initOk`.  Everything else follows the two modules: `createSystemCanvases`
destroys the previous system's canvases first and returns the new
*canvas-ID strings*; `VIB3Engine.createSystem` then iterates over that
return value calling `canvas.getContext('webgl')` on each element — a
property access on a string, so the first loop iteration raises a
`TypeError` whenever the canvas list is non-empty.  State mutations made
before a throw persist, as in JS.  Each run also produces a trace of
lifecycle events for the exclusivity analysis. -/

namespace Engine

/-- Observable lifecycle events of a system switch. -/
inductive Event where
  | setActiveFalse (sys : String)
  | destroyAdapter (sys : String)
  | loseContexts (sys : String)
  | removeCanvases (sys : String)
  | createCanvases (sys : String)
  | newAdapter (sys : String)
  | initAdapter (sys : String)
  | adapterActive (sys : String)
deriving Repr, DecidableEq

/-- `CanvasManager`'s mutable fields. -/
structure CanvasManagerState where
  activeSystem : Option String
  activeCanvases : List String
  activeContexts : List String
deriving Repr, DecidableEq

/-- The systems `switchSystem` accepts and `createSystem` can construct. -/
def engineSystems : List String := ["quantum", "faceted", "holographic"]

/-- `VIB3Engine.getSystemLayers(systemName)`. -/
def getSystemLayers (systemName : String) : List String :=
  if systemName = "quantum" then
    ["background", "shadow", "content", "highlight", "accent"]
  else if systemName = "faceted" then ["canvas"]
  else if systemName = "holographic" then
    ["background", "shadow", "content", "highlight", "accent"]
  else ["canvas"]

/-- `CanvasManager.getCanvasIdsForSystem(systemName)`. -/
def getCanvasIdsForSystem (systemName : String) : List String :=
  let baseIds := ["background-canvas", "shadow-canvas", "content-canvas",
                  "highlight-canvas", "accent-canvas"]
  if systemName = "faceted" then baseIds
  else if systemName = "quantum" then baseIds.map (fun i => "quantum-" ++ i)
  else if systemName = "holographic" then baseIds.map (fun i => "holo-" ++ i)
  else baseIds

/-- `CanvasManager.destroyActiveSystem()`: loses all tracked WebGL
contexts, removes all tracked canvases, clears both maps. -/
def destroyActiveSystem (cms : CanvasManagerState) :
    CanvasManagerState × List Event :=
  match cms.activeSystem with
  | none => (cms, [])
  | some old =>
    (⟨none, [], []⟩, [Event.loseContexts old, Event.removeCanvases old])

/-- `CanvasManager.createSystemCanvases(systemName)`: destroys any active
system first, creates the new layer canvases, and returns their ID
strings. -/
def createSystemCanvases (systemName : String) (cms : CanvasManagerState) :
    List String × CanvasManagerState × List Event :=
  let step1 :=
    if cms.activeSystem.isSome then destroyActiveSystem cms else (cms, [])
  let canvasIds := getCanvasIdsForSystem systemName
  ( canvasIds,
    ⟨some systemName, canvasIds, step1.1.activeContexts⟩,
    step1.2 ++ [Event.createCanvases systemName] )

/-- `VIB3Engine.createSystem(systemName)`: creates canvases, constructs
and initializes the engine instance, then iterates over the returned
canvas-ID strings calling `canvas.getContext('webgl')` — which throws a
`TypeError` on the first string when the list is non-empty.  Errors of
the try block are logged and re-thrown; canvas-manager mutations persist
either way.  Only on full success is `setActive(true)` reached. -/
def createSystem (initOk : String → Bool) (systemName : String)
    (cms : CanvasManagerState) :
    CanvasManagerState × List Event × Except String Unit :=
  let made := createSystemCanvases systemName cms
  let canvasIds := made.1
  let cms1 := made.2.1
  let ev1 := made.2.2
  if systemName ∈ engineSystems then
    let ev2 := ev1 ++ [Event.newAdapter systemName]
    if initOk systemName then
      match canvasIds with
      | [] =>
        (cms1, ev2 ++ [Event.initAdapter systemName, Event.adapterActive systemName],
         Except.ok ())
      | _ :: _ =>
        (cms1, ev2 ++ [Event.initAdapter systemName],
         Except.error "TypeError: canvas.getContext is not a function")
    else (cms1, ev2, Except.error "initialize failed")
  else (cms1, ev1, Except.error "Unknown system")

/-- `VIB3Engine`'s mutable fields relevant to switching. -/
structure EngineState where
  activeSystem : Option String
  currentSystemName : String
  canvasMgr : CanvasManagerState
deriving Repr, DecidableEq

/-- The teardown block of `switchSystem`: `setActive(false)`, `destroy()`
on the active system, then `this.activeSystem = null`. -/
def switchTeardown (st : EngineState) : EngineState × List Event :=
  match st.activeSystem with
  | none => (st, [])
  | some a =>
    ({ st with activeSystem := none },
     [Event.setActiveFalse a, Event.destroyAdapter a])

/-- `VIB3Engine.switchSystem(systemName)`: name guard, teardown of the
active system, then `createSystem`; on success returns `true` with the
new system active, on failure returns `false` (with `activeSystem`
still `null`). -/
def switchSystem (initOk : String → Bool) (systemName : String)
    (st : EngineState) : Bool × EngineState × List Event :=
  if systemName ∉ engineSystems then (false, st, [])
  else
    let town := switchTeardown st
    let created := createSystem initOk systemName town.1.canvasMgr
    match created.2.2 with
    | Except.ok _ =>
      (true,
       ⟨some systemName, systemName, created.1⟩,
       town.2 ++ created.2.1)
    | Except.error _ =>
      (false,
       { town.1 with canvasMgr := created.1 },
       town.2 ++ created.2.1)

/-- The engine state right after the constructor ran (before the first
`switchSystem` of `initialize`): no active system, current name
`quantum`, fresh canvas manager. -/
def initialEngineState : EngineState := ⟨none, "quantum", ⟨none, [], []⟩⟩

end Engine

/-! ## ReactivityManager — interaction modes

Embedded from `src/core/ReactivityManager.js`: the `RotationMode` mouse
strategy and the self-scheduling decay loops of the `BurstMode` and
`RippleMode` click strategies.  Values are exact rationals (JS doubles
idealized); the decay loops additionally use an unreduced-fraction
representation so that iterated states evaluate inside the kernel. -/

namespace ReactivityManager

/-- JS truncation toward zero (the integer part used by the `%`
operator on non-integers). -/
def jsTrunc (q : ℚ) : Int := if q < 0 then ⌈q⌉ else ⌊q⌋

/-- JS `%` on arbitrary numbers: `a - b * trunc(a / b)`. -/
def jsFmod (a b : ℚ) : ℚ := a - b * (jsTrunc (a / b) : ℚ)

/-- `value.toFixed(2)` read back as a number: rounding to a hundredth
(ties do not arise at the inputs considered here). -/
def toFixed2 (q : ℚ) : ℚ := ((round (q * 100) : Int) : ℚ) / 100

/-- The seven parameter writes `RotationMode.handleMouseMove` performs. -/
structure RotationUpdates where
  rot4dXY : ℚ
  rot4dXZ : ℚ
  rot4dYZ : ℚ
  rot4dXW : ℚ
  rot4dYW : ℚ
  rot4dZW : ℚ
  hue : Int
deriving Repr

/-- `RotationMode.handleMouseMove(x, y, updateParam)`: six 4D rotation
angles derived linearly from the pointer position (range `6.28 * 2`),
written through `toFixed(2)`, plus a hue write (`Math.round`); the
constructor sets `this.scrollHue = 200`. -/
def rotationHandleMouseMove (scrollHue x y : ℚ) : RotationUpdates :=
  let rotationRange : ℚ := 6.28 * 2
  let rot4dXY := (x - 0.5) * rotationRange * 0.5
  let rot4dXZ := (y - 0.5) * rotationRange * 0.3
  let rot4dYZ := ((x + y) / 2 - 0.5) * rotationRange * 0.2
  let rot4dXW := (x - 0.5) * rotationRange
  let rot4dYW := (x - 0.5) * rotationRange * 0.7
  let rot4dZW := (y - 0.5) * rotationRange
  let hueOffset := (x - 0.5) * 30
  let mouseHue := jsFmod (scrollHue + hueOffset) 360
  ⟨toFixed2 rot4dXY, toFixed2 rot4dXZ, toFixed2 rot4dYZ,
   toFixed2 rot4dXW, toFixed2 rot4dYW, toFixed2 rot4dZW, round mouseHue⟩

/-- An exact rational stored as an unreduced fraction with positive
denominator; unlike `ℚ`, its operations reduce inside the kernel. -/
structure Frac where
  num : Int
  den : Int
deriving Repr, DecidableEq

/-- The loop guard `value > 0.01` (for `den > 0`). -/
def Frac.gtEps (x : Frac) : Bool := decide (x.den < 100 * x.num)

/-- `BurstMode.handleClick` sets
`this.effects = \x7b chaosBoost: 0.8, speedBoost: 1.5 \x7d`. -/
def burstClickEffects : Frac × Frac := (⟨8, 10⟩, ⟨15, 10⟩)

/-- One `animate()` tick of `BurstMode.startAnimation`: each effect
magnitude still above the `0.01` epsilon is written out and decayed
(`chaosBoost *= 0.92`, `speedBoost *= 0.91`); magnitudes at or below
epsilon are left untouched. -/
def burstTickStep (st : Frac × Frac) : Frac × Frac :=
  ( if st.1.gtEps then ⟨st.1.num * 92, st.1.den * 100⟩ else st.1,
    if st.2.gtEps then ⟨st.2.num * 91, st.2.den * 100⟩ else st.2 )

/-- `hasEffects` of a burst tick: some magnitude still above epsilon;
when false the tick does not call `requestAnimationFrame` again. -/
def burstHasEffects (st : Frac × Frac) : Bool := st.1.gtEps || st.2.gtEps

/-- The effect state when tick `n` of the burst decay loop runs
(tick 0 is the `animate()` call made directly by `startAnimation`). -/
def burstIter (n : Nat) : Frac × Frac := burstTickStep^[n] burstClickEffects

/-- `RippleMode.handleClick`: `morphIntensity = 0.1 + 0.2 * (1.0 - nd)`
where `nd = min(distance / 0.707, 1.0) ∈ [0, 1]`. -/
def rippleClickIntensity (nd : ℚ) : ℚ := 0.1 + 0.2 * (1 - nd)

/-- One `animate()` tick of `RippleMode.startAnimation`: while
`morphIntensity > 0.01` it writes the morph and decays by `0.9`;
otherwise it writes the base morph once and stops scheduling. -/
def rippleTickStep (m : ℚ) : ℚ := if 1/100 < m then m * (9/10) else m

/-- `morphIntensity` when tick `n` of the ripple decay loop runs. -/
def rippleIter (m : ℚ) (n : Nat) : ℚ := rippleTickStep^[n] m

end ReactivityManager

/-! ## URL state codec — `encodeStateToURL` / `loadStateFromURL`

Embedded from the state-manager module.  The model starts from the
already-parsed compact object `\x7b v, s, g, p \x7d` (base64 and JSON
transport are outside the model; a missing `state` query parameter or a
parse failure is the `none` input). -/

namespace StateManager

open CollectionManager in
/-- The compact `\x7b v, s, g, p \x7d` form produced by
`encodeStateToURL`. -/
structure CompressedState where
  v : Option String := none
  s : Option String := none
  g : Option Int := none
  p : Option Params := none

open CollectionManager in
/-- The full state object `loadStateFromURL` reconstructs (the
`timestamp` field and the always-empty `ui`/`performance`/`reactivity`
objects are omitted from the model). -/
structure AppState where
  version : String
  system : String
  geometry : Int
  parameters : Params

/-- JS `a || d` on an optional string (empty string is falsy). -/
def jsOrString (a : Option String) (d : String) : String :=
  match a with
  | none => d
  | some s => if s = "" then d else s

/-- JS `a || d` on an optional number (`0` is falsy). -/
def jsOrInt (a : Option Int) (d : Int) : Int :=
  match a with
  | none => d
  | some n => if n = 0 then d else n

/-- `encodeStateToURL`: the compact representation of a state. -/
def encodeStateToURL (st : AppState) : CompressedState :=
  ⟨some st.version, some st.system, some st.geometry, some st.parameters⟩

/-- `loadStateFromURL`: `none` without a `state` query parameter;
otherwise expands the compact form with `compressed.v || '1.0'`,
`compressed.s || 'faceted'`, `compressed.g || 0` and
`compressed.p || \x7b\x7d`. -/
def loadStateFromURL (encoded : Option CompressedState) : Option AppState :=
  match encoded with
  | none => none
  | some c =>
    some { version := jsOrString c.v "1.0",
           system := jsOrString c.s "faceted",
           geometry := jsOrInt c.g 0,
           parameters := c.p.getD {} }

end StateManager

end VIB3

namespace VIB3

/-! # Theorems -/

/-! ## Arithmetic helper lemmas for the JS `%` idiom -/

theorem neg_tmod_eq (a b : Int) : (-a).tmod b = -(a.tmod b) := by
  have h1 := Int.tmod_add_tdiv a b
  have h2 := Int.tmod_add_tdiv (-a) b
  rw [Int.neg_tdiv, mul_neg] at h2
  omega

theorem tmod_lower_bound (a : Int) {t : Int} (ht : 0 < t) : -t < a.tmod t := by
  rcases le_or_lt 0 a with h | h
  · have := Int.tmod_nonneg t h
    omega
  · have hneg : a.tmod t = -((-a).tmod t) := by
      rw [neg_tmod_eq]; ring
    have hnn : (0 : Int) ≤ -a := by omega
    have hlt := Int.tmod_lt_of_pos (-a) ht
    have hge := Int.tmod_nonneg t hnn
    omega

theorem tmod_sub_emod_dvd (a t : Int) : t ∣ (a.tmod t - a % t) := by
  have h1 := Int.tmod_add_tdiv a t
  have h2 := Int.emod_add_ediv a t
  exact ⟨a / t - a.tdiv t, by rw [mul_sub]; omega⟩

/-- The JS normalization idiom `((x % 24) + 24) % 24` equals the Euclidean
remainder modulo 24. -/
theorem jsWrap24_eq_emod (a : Int) : jsMod (jsMod a 24 + 24) 24 = a % 24 := by
  unfold jsMod
  have hub := Int.tmod_lt_of_pos a (show (0:Int) < 24 by norm_num)
  have hlb := tmod_lower_bound a (show (0:Int) < 24 by norm_num)
  have hnn : (0 : Int) ≤ a.tmod 24 + 24 := by omega
  rw [Int.tmod_eq_emod hnn (by norm_num)]
  obtain ⟨k, hk⟩ := tmod_sub_emod_dvd a 24
  have hm0 := Int.emod_nonneg a (show (24:Int) ≠ 0 by norm_num)
  have hm1 := Int.emod_lt_of_pos a (show (0:Int) < 24 by norm_num)
  omega

namespace GeometryLibrary

/-- `describeGeometry` depends on its argument only through the wrapped
index, so it agrees with itself at `i % 24`. -/
theorem describe_norm (i : Int) : describeGeometry i = describeGeometry (i % 24) := by
  have hbase : ((BASE_GEOMETRIES.length : Nat) : Int) = 8 := by decide
  have hcore : ((CORE_VARIANTS.length : Nat) : Int) = 3 := by decide
  have h2 : jsMod (jsMod (i % 24) 24 + 24) 24 = i % 24 := by
    rw [jsWrap24_eq_emod (i % 24), Int.emod_emod_of_dvd _ (dvd_refl 24)]
  unfold describeGeometry
  rw [hbase, hcore]
  norm_num
  rw [jsWrap24_eq_emod i, h2]

/-- On an already-wrapped index `n ∈ [0, 24)`, `describeGeometry` returns
the pair `(coreIndex, baseIndex) = (n / 8, n % 8)` and reports `n` itself. -/
theorem describe_in_range (n : Int) (h0 : 0 ≤ n) (h1 : n < 24) :
    (describeGeometry n).map (fun d => (d.index, d.coreIndex, d.baseIndex)) =
      some (n, n / 8, n % 8) := by
  interval_cases n <;> decide

/-- C1: for every valid pair (`0 ≤ c < coreCount = 3`, `0 ≤ b < baseCount = 8`),
`encodeGeometryIndex(b, c)` returns `c * baseCount + b`, and decoding that
index with `describeGeometry` recovers `coreIndex = c` and `baseIndex = b`. -/
theorem c1_encode_decode_roundtrip (b c : Int)
    (hb0 : 0 ≤ b) (hb : b < 8) (hc0 : 0 ≤ c) (hc : c < 3) :
    encodeGeometryIndex b c = some (c * 8 + b) ∧
    (describeGeometry (c * 8 + b)).map (fun d => (d.coreIndex, d.baseIndex)) =
      some (c, b) := by
  interval_cases b <;> interval_cases c <;> decide

/-- Witness for C1 at the concrete pair `b = 5`, `c = 2`. -/
theorem c1_encode_decode_roundtrip_witness :
    encodeGeometryIndex 5 2 = some 21 ∧
    (describeGeometry 21).map (fun d => (d.coreIndex, d.baseIndex)) =
      some (2, 5) :=
  c1_encode_decode_roundtrip 5 2 (by norm_num) (by norm_num) (by norm_num) (by norm_num)

/-- C6 counterexample: `describeGeometry` never fails with an out-of-range
error; at the out-of-range indices `24` and `-1` it still returns decoded
pairs (wrapped modulo 24) instead of an error. -/
theorem c6_decode_out_of_range_counterexample :
    (describeGeometry 24).map (fun d => (d.coreIndex, d.baseIndex)) = some (0, 0) ∧
    (describeGeometry (-1)).map (fun d => (d.coreIndex, d.baseIndex)) = some (2, 7) := by
  decide

/-- C6 (amended): `describeGeometry(index)` returns the decoded pair for
every index in `[0, 24)`, and for every other integer it wraps the index
modulo 24 (Euclidean) and returns the wrapped pair — it never fails with
an out-of-range error. -/
theorem c6_decode_total_wraps (i : Int) :
    (describeGeometry i).map (fun d => (d.index, d.coreIndex, d.baseIndex)) =
      some (i % 24, (i % 24) / 8, (i % 24) % 8) := by
  rw [describe_norm i]
  exact describe_in_range (i % 24)
    (Int.emod_nonneg _ (by norm_num)) (Int.emod_lt_of_pos _ (by norm_num))

end GeometryLibrary

namespace CollectionManager

/-- A rotation channel that is undefined or within `[0, 6.28]` passes the
`rotBad` test. -/
theorem rotBad_eq_false (v : Option ℚ)
    (h : ∀ q, v = some q → 0 ≤ q ∧ q ≤ 6.28) : rotBad v = false := by
  cases v with
  | none => rfl
  | some x =>
    obtain ⟨h0, h1⟩ := h x rfl
    simp only [rotBad, Bool.or_eq_false_iff, decide_eq_false_iff_not, not_lt]
    exact ⟨h0, h1⟩

/-- `firstRotError` reports nothing iff all six channels pass. -/
theorem firstRotError_none_iff (p : Params) :
    firstRotError p = none ↔
      (rotBad p.rot4dXY = false ∧ rotBad p.rot4dXZ = false ∧
       rotBad p.rot4dYZ = false ∧ rotBad p.rot4dXW = false ∧
       rotBad p.rot4dYW = false ∧ rotBad p.rot4dZW = false) := by
  unfold firstRotError
  split_ifs <;> simp_all

/-- C3: the decision logic of `importCollectionFile` admits, for any
migration function, a document whose single variation carries
`geometry: 999`, because it only inspects the `type` tag; the unused
`validateCollection` would have rejected that very document with a
descriptive geometry error. -/
theorem c3_import_admits_invalid_geometry (migrate : Variation → Variation) :
    importCollectionDecision migrate
      ⟨some "vib3plus-collection",
       some [⟨some "quantum", some { geometry := some 999 }⟩]⟩ =
      Except.ok
        ⟨some "vib3plus-collection",
         some [⟨some "quantum", some { geometry := some 999 }⟩]⟩ ∧
    validateCollection
      ⟨some "vib3plus-collection",
       some [⟨some "quantum", some { geometry := some 999 }⟩]⟩ =
      ⟨false, some "Invalid geometry index"⟩ := by
  constructor
  · rfl
  · rfl

/-- C3 witness: the conjunction instantiated at the identity migration. -/
theorem c3_import_admits_invalid_geometry_witness :
    importCollectionDecision id
      ⟨some "vib3plus-collection",
       some [⟨some "quantum", some { geometry := some 999 }⟩]⟩ =
      Except.ok
        ⟨some "vib3plus-collection",
         some [⟨some "quantum", some { geometry := some 999 }⟩]⟩ :=
  (c3_import_admits_invalid_geometry id).1

/-- C9 counterexample: a variation with its system name and parameters
object present and no geometry field is still rejected when a rotation
channel is out of range, so "missing geometry" alone does not guarantee
acceptance. -/
theorem c9_missing_geometry_counterexample :
    (Variation.system ⟨some "quantum", some { rot4dXY := some 7 }⟩).isSome = true ∧
    (Variation.parameters ⟨some "quantum", some { rot4dXY := some 7 }⟩).isSome = true ∧
    Params.geometry { rot4dXY := some 7 } = none ∧
    validateCollection
      ⟨some "vib3plus-collection",
       some [⟨some "quantum", some { rot4dXY := some 7 }⟩]⟩ =
      ⟨false, some "Invalid rotation parameter: rot4dXY"⟩ := by
  refine ⟨rfl, rfl, rfl, ?_⟩
  have h7 : rotBad (some 7) = true := by
    simp only [rotBad, Bool.or_eq_true, decide_eq_true_eq]
    right
    norm_num
  simp [validateCollection, validateVariations, checkVariation, validSystems,
        jsUndefLt, jsUndefGt, firstRotError, h7]

/-- C9 (amended): `validateCollection` accepts a variation with no
geometry field — `undefined < 0` and `undefined > 23` are both false —
whenever its system name and parameters object are present and every
defined rotation channel lies within `[0, 6.28]`. -/
theorem c9_missing_geometry_passes (s : String) (p : Params)
    (hs : s ∈ validSystems)
    (hg : p.geometry = none)
    (h1 : ∀ q, p.rot4dXY = some q → 0 ≤ q ∧ q ≤ 6.28)
    (h2 : ∀ q, p.rot4dXZ = some q → 0 ≤ q ∧ q ≤ 6.28)
    (h3 : ∀ q, p.rot4dYZ = some q → 0 ≤ q ∧ q ≤ 6.28)
    (h4 : ∀ q, p.rot4dXW = some q → 0 ≤ q ∧ q ≤ 6.28)
    (h5 : ∀ q, p.rot4dYW = some q → 0 ≤ q ∧ q ≤ 6.28)
    (h6 : ∀ q, p.rot4dZW = some q → 0 ≤ q ∧ q ≤ 6.28) :
    validateCollection
      ⟨some "vib3plus-collection", some [⟨some s, some p⟩]⟩ = ⟨true, none⟩ := by
  have hrot : firstRotError p = none :=
    (firstRotError_none_iff p).mpr
      ⟨rotBad_eq_false _ h1, rotBad_eq_false _ h2, rotBad_eq_false _ h3,
       rotBad_eq_false _ h4, rotBad_eq_false _ h5, rotBad_eq_false _ h6⟩
  simp [validateCollection, validateVariations, checkVariation, hs, hg,
        jsUndefLt, jsUndefGt, hrot]

/-- Unfolding of `checkVariation` on a variation with both fields set. -/
theorem checkVariation_some (s : String) (p : Params) :
    checkVariation ⟨some s, some p⟩ =
      (if s ∉ validSystems then some "Invalid system"
       else if jsUndefLt p.geometry 0 || jsUndefGt p.geometry 23 then
         some "Invalid geometry index"
       else firstRotError p) := rfl

/-- On a singleton variation list, validity is exactly "no error". -/
theorem validateVariations_singleton (v : Variation) :
    (validateVariations [v]).valid = (checkVariation v).isNone := by
  unfold validateVariations
  cases checkVariation v <;> rfl

/-- C10: `validateCollection` rejects any well-formed variation in which
some defined rotation channel lies strictly below `0` or above `6.28`
(first conjunct), while a channel value anywhere in `[0, 6.28]` is
accepted (second conjunct), so the accepted range at import is exactly
`[0, 6.28]`; yet `RotationMode.handleMouseMove` at the pointer position
`(0, 0)` writes the negative value `-3.14` into `rot4dXY` (third and
fourth conjuncts), and a snapshot carrying that live value fails
collection validation (fifth conjunct). -/
theorem c10_rotation_range_excludes_live_writes
    (s : String) (p : Params) (q : ℚ)
    (hch : p.rot4dXY = some q ∨ p.rot4dXZ = some q ∨ p.rot4dYZ = some q ∨
           p.rot4dXW = some q ∨ p.rot4dYW = some q ∨ p.rot4dZW = some q)
    (hq : q < 0 ∨ 6.28 < q)
    (r : ℚ) (hr0 : 0 ≤ r) (hr1 : r ≤ 6.28) :
    (validateCollection
      ⟨some "vib3plus-collection", some [⟨some s, some p⟩]⟩).valid = false ∧
    validateCollection
      ⟨some "vib3plus-collection",
       some [⟨some "quantum", some { rot4dXY := some r }⟩]⟩ = ⟨true, none⟩ ∧
    (ReactivityManager.rotationHandleMouseMove 200 0 0).rot4dXY = -157/50 ∧
    ((-157/50 : ℚ) < 0) ∧
    validateCollection
      ⟨some "vib3plus-collection",
       some [⟨some "quantum", some { rot4dXY := some (-157/50) }⟩]⟩ =
      ⟨false, some "Invalid rotation parameter: rot4dXY"⟩ := by
  have hbadq : rotBad (some q) = true := by
    simp only [rotBad, Bool.or_eq_true, decide_eq_true_eq]
    rcases hq with h | h
    · exact Or.inl h
    · exact Or.inr h
  refine ⟨?_, ?_, ?_, by norm_num, ?_⟩
  · -- rejection of the out-of-range channel
    have hfre : firstRotError p ≠ none := by
      intro hnone
      have hall := (firstRotError_none_iff p).mp hnone
      rcases hch with h | h | h | h | h | h <;> rw [h] at hall <;>
        simp [hbadq] at hall
    have hcv : checkVariation ⟨some s, some p⟩ ≠ none := by
      rw [checkVariation_some]
      split_ifs <;> simp [hfre]
    show (validateCollection _).valid = false
    unfold validateCollection
    rw [if_neg (by simp)]
    rw [validateVariations_singleton]
    simpa [Option.isNone_iff_eq_none, Option.isSome_iff_ne_none] using hcv
  · -- acceptance of an in-range channel
    have hrot : firstRotError { rot4dXY := some r } = none :=
      (firstRotError_none_iff _).mpr
        ⟨rotBad_eq_false _ (fun u hu => by cases hu; exact ⟨hr0, hr1⟩),
         rfl, rfl, rfl, rfl, rfl⟩
    simp [validateCollection, validateVariations, checkVariation, validSystems,
          jsUndefLt, jsUndefGt, hrot]
  · -- RotationMode writes -3.14 at (x, y) = (0, 0)
    show ReactivityManager.toFixed2 (((0:ℚ) - 0.5) * (6.28 * 2) * 0.5) = -157/50
    unfold ReactivityManager.toFixed2
    rw [show ((0:ℚ) - 0.5) * (6.28 * 2) * 0.5 * 100 = ((-314 : Int) : ℚ) from by
      norm_num]
    rw [round_intCast]
    norm_num
  · -- the snapshot with the live value fails validation
    have hbad : rotBad (some (-157/50 : ℚ)) = true := by
      simp only [rotBad, Bool.or_eq_true, decide_eq_true_eq]
      left
      norm_num
    simp [validateCollection, validateVariations, checkVariation, validSystems,
          jsUndefLt, jsUndefGt, firstRotError, hbad]

/-- C10 witness: the conjunction instantiated at a concrete out-of-range
channel (`rot4dXZ = 6.29`) and the in-range boundary value `6.28`. -/
theorem c10_rotation_range_excludes_live_writes_witness :
    (validateCollection
      ⟨some "vib3plus-collection",
       some [⟨some "quantum", some { rot4dXZ := some 6.29 }⟩]⟩).valid = false ∧
    validateCollection
      ⟨some "vib3plus-collection",
       some [⟨some "quantum", some { rot4dXY := some 6.28 }⟩]⟩ = ⟨true, none⟩ ∧
    (ReactivityManager.rotationHandleMouseMove 200 0 0).rot4dXY = -157/50 ∧
    ((-157/50 : ℚ) < 0) ∧
    validateCollection
      ⟨some "vib3plus-collection",
       some [⟨some "quantum", some { rot4dXY := some (-157/50) }⟩]⟩ =
      ⟨false, some "Invalid rotation parameter: rot4dXY"⟩ :=
  c10_rotation_range_excludes_live_writes "quantum" { rot4dXZ := some 6.29 } 6.29
    (Or.inr (Or.inl rfl)) (Or.inr (by norm_num)) 6.28 (by norm_num) (by norm_num)

/-- C9 witness: the amended acceptance at a concrete geometry-less
variation with one in-range rotation channel. -/
theorem c9_missing_geometry_passes_witness :
    validateCollection
      ⟨some "vib3plus-collection",
       some [⟨some "quantum", some { rot4dXY := some 1 }⟩]⟩ = ⟨true, none⟩ :=
  c9_missing_geometry_passes "quantum" { rot4dXY := some 1 }
    (by decide) rfl
    (fun q h => by cases h; norm_num)
    (fun q h => nomatch h) (fun q h => nomatch h) (fun q h => nomatch h)
    (fun q h => nomatch h) (fun q h => nomatch h)

end CollectionManager

namespace Hexacosichoron

/-- Sanity check of the field model: `phi * invPhi = 1` and
`phi * phi = phi + 1`, so `⟨1/2, 1/2⟩` really is the golden ratio and
`⟨-1/2, 1/2⟩` its inverse. -/
theorem phi_invPhi_sanity :
    Q5.phi * Q5.invPhi = 1 ∧ Q5.phi * Q5.phi = Q5.phi + Q5.ofInt 1 := by
  decide

/-- C2: the constructor's vertex generation pushes `8 + 48 + 48 = 104`
vertices — group 1 contributes 8, and groups 2 and 3 contribute 48 each
(12 distinct permutations for each of 4 sign bases) — not the 120 the
code documents; every pushed vertex has exact squared norm `4`, `3` or
`phi + 2`, hence nonzero, so `normalize4D` maps each to an exactly
unit-length vertex. -/
theorem c2_vertex_count :
    generateVerticesRaw.length = 104 ∧
    group1.length = 8 ∧ group2.length = 48 ∧ group3.length = 48 ∧
    (generateVerticesRaw.all (fun v =>
      normSq v = Q5.ofInt 4 ∨ normSq v = Q5.ofInt 3 ∨
      normSq v = Q5.phi + Q5.ofInt 2)) = true := by
  decide

end Hexacosichoron

namespace StateManager

/-- C7 counterexample: decoding a compact state whose `p` object is
absent succeeds (system defaulted to `faceted`), yet the resulting
parameter set leaves e.g. the `hue` channel undefined instead of filling
it with a documented default. -/
theorem c7_url_decode_counterexample :
    (loadStateFromURL (some {})).map (fun st => st.parameters.hue) = some none ∧
    (loadStateFromURL (some {})).map (fun st => st.parameters.speed) = some none ∧
    (loadStateFromURL (some {})).map (fun st => st.system) = some "faceted" := by
  exact ⟨rfl, rfl, rfl⟩

/-- C7 (amended): decoding a shareable-URL state fills the four
*top-level* fields with fixed defaults when absent or falsy — version
`1.0`, system `faceted`, geometry `0`, parameters `\x7b\x7d` — but the
parameters object is passed through exactly as transmitted: a parameter
channel absent from the compact form stays undefined in the decoded
state rather than being filled with its documented default. -/
theorem c7_url_decode_passthrough (c : CompressedState) :
    (loadStateFromURL (some c)).map (fun st => st.parameters) =
      some (c.p.getD {}) ∧
    (loadStateFromURL (some c)).map (fun st => st.version) =
      some (jsOrString c.v "1.0") ∧
    (loadStateFromURL (some c)).map (fun st => st.system) =
      some (jsOrString c.s "faceted") ∧
    (loadStateFromURL (some c)).map (fun st => st.geometry) =
      some (jsOrInt c.g 0) ∧
    (c.p = none → (loadStateFromURL (some c)).map (fun st => st.parameters.hue) =
      some none) := by
  refine ⟨rfl, rfl, rfl, rfl, fun hp => ?_⟩
  simp [loadStateFromURL, hp]

/-- C7 witness: the amended statement applied at a compact state carrying
only a system name (so `p` is absent and the implication's hypothesis
holds by `rfl`). -/
theorem c7_url_decode_passthrough_witness :
    (loadStateFromURL (some { s := some "quantum" })).map (fun st => st.parameters) =
      some {} ∧
    (loadStateFromURL (some { s := some "quantum" })).map (fun st => st.system) =
      some "quantum" ∧
    (loadStateFromURL (some { s := some "quantum" })).map
      (fun st => st.parameters.hue) = some none :=
  ⟨(c7_url_decode_passthrough { s := some "quantum" }).1,
   (c7_url_decode_passthrough { s := some "quantum" }).2.2.1,
   (c7_url_decode_passthrough { s := some "quantum" }).2.2.2.2 rfl⟩

end StateManager

namespace ReactivityManager

/-- Envelope of the ripple decay loop: the intensity stays nonnegative
and below `max(epsilon, m·0.9^n)` after `n` ticks. -/
theorem rippleIter_bound (m : ℚ) (hm : 0 ≤ m) (n : Nat) :
    0 ≤ rippleIter m n ∧ rippleIter m n ≤ max (1/100) (m * (9/10) ^ n) := by
  induction n with
  | zero => simpa [rippleIter] using hm
  | succ k ih =>
    obtain ⟨ih0, ih1⟩ := ih
    have hstep : rippleIter m (k + 1) = rippleTickStep (rippleIter m k) := by
      simp [rippleIter, Function.iterate_succ_apply']
    rw [hstep]
    unfold rippleTickStep
    split_ifs with h
    · constructor
      · positivity
      · have hle : rippleIter m k ≤ m * (9/10) ^ k := by
          rcases le_max_iff.mp ih1 with h1 | h1
          · linarith
          · exact h1
        have hs : rippleIter m k * (9/10) ≤ m * (9/10) ^ (k + 1) := by
          rw [pow_succ]
          nlinarith
        exact le_max_of_le_right hs
    · exact ⟨ih0, le_max_of_le_left (by linarith)⟩

set_option maxRecDepth 8000 in
/-- C8: the click-mode decay loops terminate within the claimed tick
budget.  Burst: the effects set by a click (`chaosBoost 0.8` decaying by
`0.92`, `speedBoost 1.5` by `0.91`) still schedule at tick 53 but
schedule nothing from tick 54 on (54 ≤ 100), and a tick without
effects leaves the state unchanged, so no further writes ever occur.
Ripple: for a click at any normalized distance in `[0, 1]` the morph
intensity (`0.1 + 0.2·(1 - nd)`, decaying by `0.9`) is at or below the
`0.01` epsilon after 33 ticks (33 ≤ 100), and a magnitude at or below
epsilon is a fixed point of the tick step. -/
theorem c8_decay_terminates :
    (burstHasEffects (burstIter 54) = false ∧
     burstHasEffects (burstIter 53) = true ∧ 54 ≤ 100) ∧
    (∀ st, burstHasEffects st = false → burstTickStep st = st) ∧
    (∀ nd : ℚ, 0 ≤ nd → nd ≤ 1 →
       rippleIter (rippleClickIntensity nd) 33 ≤ 1/100 ∧ 33 ≤ 100) ∧
    (∀ m : ℚ, m ≤ 1/100 → rippleTickStep m = m) := by
  refine ⟨⟨by decide, by decide, by norm_num⟩, ?_, ?_, ?_⟩
  · intro st h
    have h1 : st.1.gtEps = false := by
      simpa [burstHasEffects, Bool.or_eq_false_iff] using
        (Bool.or_eq_false_iff.mp h).1
    have h2 : st.2.gtEps = false := (Bool.or_eq_false_iff.mp h).2
    simp [burstTickStep, h1, h2]
  · intro nd h0 h1
    refine ⟨?_, by norm_num⟩
    have hm0 : 0 ≤ rippleClickIntensity nd := by
      unfold rippleClickIntensity
      nlinarith
    have hm : rippleClickIntensity nd ≤ 3/10 := by
      unfold rippleClickIntensity
      nlinarith
    have h := (rippleIter_bound _ hm0 33).2
    have hp : (0:ℚ) ≤ (9/10 : ℚ) ^ 33 := by positivity
    have hb : rippleClickIntensity nd * (9/10) ^ 33 ≤ (3/10 : ℚ) * (9/10) ^ 33 := by
      nlinarith
    have hc : (3/10 : ℚ) * (9/10) ^ 33 ≤ 1/100 := by norm_num
    rcases le_max_iff.mp h with hx | hx <;> linarith
  · intro m hm
    unfold rippleTickStep
    rw [if_neg (by linarith)]

/-- C8 witness: the quantified conjuncts applied at concrete inputs —
an effectless burst state, a click at the center (`nd = 0` gives the
maximal intensity `0.3`), and a subthreshold ripple magnitude. -/
theorem c8_decay_terminates_witness :
    burstTickStep (⟨0, 1⟩, ⟨0, 1⟩) = (⟨0, 1⟩, ⟨0, 1⟩) ∧
    rippleIter (rippleClickIntensity 0) 33 ≤ 1/100 ∧
    rippleTickStep 0 = 0 :=
  ⟨c8_decay_terminates.2.1 (⟨0, 1⟩, ⟨0, 1⟩) (by decide),
   (c8_decay_terminates.2.2.1 0 (by norm_num) (by norm_num)).1,
   c8_decay_terminates.2.2.2 0 (by norm_num)⟩

end ReactivityManager

namespace Engine

/-- For every system the engine can construct, `createSystem` throws:
either `initialize` rejects, or the context-registration loop calls
`getContext` on a canvas-ID string. -/
theorem createSystem_fails (initOk : String → Bool) (name : String)
    (cms : CanvasManagerState) (hname : name ∈ engineSystems) :
    ∃ e, (createSystem initOk name cms).2.2 = Except.error e := by
  simp only [engineSystems, List.mem_cons, List.not_mem_nil, or_false,
    List.mem_singleton] at hname
  rcases hname with rfl | rfl | rfl <;>
    (unfold createSystem createSystemCanvases getCanvasIdsForSystem;
     split_ifs <;> exact ⟨_, rfl⟩)

/-- `createSystem` never emits an adapter-teardown or adapter-activation
event for a constructible system (its canvas list is non-empty, so the
success path is unreachable). -/
theorem createSystem_no_lifecycle_events (initOk : String → Bool)
    (name : String) (cms : CanvasManagerState)
    (hname : name ∈ engineSystems) (a b : String) :
    Event.destroyAdapter a ∉ (createSystem initOk name cms).2.1 ∧
    Event.setActiveFalse a ∉ (createSystem initOk name cms).2.1 ∧
    Event.adapterActive b ∉ (createSystem initOk name cms).2.1 := by
  simp only [engineSystems, List.mem_cons, List.not_mem_nil, or_false,
    List.mem_singleton] at hname
  rcases hname with rfl | rfl | rfl <;> cases hcms : cms.activeSystem <;>
    (unfold createSystem createSystemCanvases getCanvasIdsForSystem;
     split_ifs <;> simp [destroyActiveSystem, hcms])

/-- New canvases are always registered for the requested system, whether
or not adapter construction subsequently throws. -/
theorem createSystem_canvas_owner (initOk : String → Bool) (name : String)
    (cms : CanvasManagerState) :
    (createSystem initOk name cms).1.activeSystem = some name := by
  unfold createSystem
  split_ifs <;> cases hio : getCanvasIdsForSystem name <;> simp [hio, createSystemCanvases]

/-- A switch attempted from an idle engine (no active adapter) fails and
stays idle; its trace is exactly `createSystem`'s trace. -/
theorem switchSystem_from_idle (initOk : String → Bool) (name : String)
    (st : EngineState) (hname : name ∈ engineSystems)
    (hst : st.activeSystem = none) :
    (switchSystem initOk name st).1 = false ∧
    (switchSystem initOk name st).2.1.activeSystem = none ∧
    (switchSystem initOk name st).2.1.canvasMgr =
      (createSystem initOk name st.canvasMgr).1 ∧
    (switchSystem initOk name st).2.2 =
      (createSystem initOk name st.canvasMgr).2.1 := by
  obtain ⟨e, he⟩ := createSystem_fails initOk name st.canvasMgr hname
  have htown : switchTeardown st = (st, []) := by
    unfold switchTeardown
    rw [hst]
  unfold switchSystem
  rw [if_neg (by simpa using hname)]
  rw [htown]
  simp [he, hst]

/-- C4: if adapter construction throws during a system switch, the
coordinator ends with no active system — `activeSystem` is `null` — and
`switchSystem` reports the failure by returning `false` instead of
continuing with a half-constructed adapter. -/
theorem c4_switch_failure_leaves_idle (initOk : String → Bool)
    (name : String) (st : EngineState) (hname : name ∈ engineSystems)
    (hfail : ∃ e,
      (createSystem initOk name (switchTeardown st).1.canvasMgr).2.2 =
        Except.error e) :
    (switchSystem initOk name st).1 = false ∧
    (switchSystem initOk name st).2.1.activeSystem = none := by
  obtain ⟨e, he⟩ := hfail
  have htown : (switchTeardown st).1.activeSystem = none := by
    unfold switchTeardown
    cases h : st.activeSystem <;> simp [h]
  unfold switchSystem
  rw [if_neg (by simpa using hname)]
  simp [he, htown]

/-- C4 witness: a switch to `quantum` whose adapter initialization
rejects, from the freshly-constructed engine state. -/
theorem c4_switch_failure_leaves_idle_witness :
    (switchSystem (fun _ => false) "quantum" initialEngineState).1 = false ∧
    (switchSystem (fun _ => false) "quantum" initialEngineState).2.1.activeSystem =
      none :=
  c4_switch_failure_leaves_idle (fun _ => false) "quantum" initialEngineState
    (by decide) ⟨"initialize failed", rfl⟩

/-- C5: running `switchTo(A)` then `switchTo(B)` from a fresh engine.
Because `createSystemCanvases` returns canvas-ID strings while
`VIB3Engine.createSystem` calls `canvas.getContext` on each element,
both switches fail: afterwards *no* adapter is active (the claim's
"exactly one" is violated), the `A` adapter's teardown hooks
(`setActive(false)`/`destroy`) are never observed (the claim's "exactly
once" is violated), no adapter ever activates, and `B`'s canvases exist
with no adapter owning them. -/
theorem c5_switch_pair_leaves_no_adapter (initOk : String → Bool)
    (A B : String) (hA : A ∈ engineSystems) (hB : B ∈ engineSystems) :
    (switchSystem initOk A initialEngineState).1 = false ∧
    (switchSystem initOk B
        (switchSystem initOk A initialEngineState).2.1).1 = false ∧
    (switchSystem initOk B
        (switchSystem initOk A initialEngineState).2.1).2.1.activeSystem =
      none ∧
    Event.destroyAdapter A ∉
      ((switchSystem initOk A initialEngineState).2.2 ++
       (switchSystem initOk B
          (switchSystem initOk A initialEngineState).2.1).2.2) ∧
    Event.setActiveFalse A ∉
      ((switchSystem initOk A initialEngineState).2.2 ++
       (switchSystem initOk B
          (switchSystem initOk A initialEngineState).2.1).2.2) ∧
    Event.adapterActive B ∉
      ((switchSystem initOk A initialEngineState).2.2 ++
       (switchSystem initOk B
          (switchSystem initOk A initialEngineState).2.1).2.2) ∧
    (switchSystem initOk B
        (switchSystem initOk A initialEngineState).2.1).2.1.canvasMgr.activeSystem =
      some B := by
  obtain ⟨r1fail, r1idle, r1cvs, r1ev⟩ :=
    switchSystem_from_idle initOk A initialEngineState hA rfl
  obtain ⟨r2fail, r2idle, r2cvs, r2ev⟩ :=
    switchSystem_from_idle initOk B
      (switchSystem initOk A initialEngineState).2.1 hB r1idle
  refine ⟨r1fail, r2fail, r2idle, ?_, ?_, ?_, ?_⟩
  · rw [r1ev, r2ev]
    simp only [List.mem_append, not_or]
    exact ⟨(createSystem_no_lifecycle_events initOk A _ hA A B).1,
           (createSystem_no_lifecycle_events initOk B _ hB A B).1⟩
  · rw [r1ev, r2ev]
    simp only [List.mem_append, not_or]
    exact ⟨(createSystem_no_lifecycle_events initOk A _ hA A B).2.1,
           (createSystem_no_lifecycle_events initOk B _ hB A B).2.1⟩
  · rw [r1ev, r2ev]
    simp only [List.mem_append, not_or]
    exact ⟨(createSystem_no_lifecycle_events initOk A _ hA A B).2.2,
           (createSystem_no_lifecycle_events initOk B _ hB A B).2.2⟩
  · rw [r2cvs]
    exact createSystem_canvas_owner initOk B _

/-- C5 witness: the double switch `quantum` → `faceted` with adapter
initialization resolving. -/
theorem c5_switch_pair_leaves_no_adapter_witness :
    (switchSystem (fun _ => true) "faceted"
        (switchSystem (fun _ => true) "quantum" initialEngineState).2.1).1 =
      false ∧
    (switchSystem (fun _ => true) "faceted"
        (switchSystem (fun _ => true) "quantum" initialEngineState).2.1).2.1.activeSystem =
      none ∧
    Event.destroyAdapter "quantum" ∉
      ((switchSystem (fun _ => true) "quantum" initialEngineState).2.2 ++
       (switchSystem (fun _ => true) "faceted"
          (switchSystem (fun _ => true) "quantum" initialEngineState).2.1).2.2) :=
  ⟨(c5_switch_pair_leaves_no_adapter (fun _ => true) "quantum" "faceted"
      (by decide) (by decide)).2.1,
   (c5_switch_pair_leaves_no_adapter (fun _ => true) "quantum" "faceted"
      (by decide) (by decide)).2.2.1,
   (c5_switch_pair_leaves_no_adapter (fun _ => true) "quantum" "faceted"
      (by decide) (by decide)).2.2.2.1⟩

end Engine

end VIB3
